import Mathlib

/-!
Verification of the RESTler grammar `restler_grammar_grammar_30.py` and of the
engine contracts its specification describes.

The grammar file is pure data: twelve request templates, each an ordered list
of primitive tokens, registered in one `req_collection`.  The primitives and
the twelve templates below are transcribed token-for-token from the source
file.  The engine that interprets such grammars (renderer, sequencer,
extractor, authentication-token manager) is not part of the repository; where
a claim is about the engine, the corresponding definition is marked
`Modelled from the spec:` and follows the specification's words.
-/

/-- The primitive token model, one constructor per grammar constructor used in
the source file: `restler_static_string`, `restler_fuzzable_string` (example
value plus quoting flag), `restler_fuzzable_int` (example value, rendered
unquoted), `restler_refreshable_authentication_token` (dynamic credential
tag), `restler_basepath` (configured path marker carrying its compiled
value). -/
inductive Primitive where
  | restler_static_string (s : String)
  | restler_fuzzable_string (exampleValue : String) (quoted : Bool)
  | restler_fuzzable_int (exampleValue : String)
  | restler_refreshable_authentication_token (tag : String)
  | restler_basepath (value : String)
deriving DecidableEq

/-- A request template: the ordered primitive list and its stable
`requestId`, exactly the two arguments of `requests.Request(...)` in the
source file. -/
structure Request where
  primitives : List Primitive
  requestId : String
deriving DecidableEq

namespace Grammar

open Primitive

/-- Endpoint: /auth/login, method: Post (source lines 10-37). -/
def request_auth_login : Request :=
  { primitives := [
      restler_static_string "POST ",
      restler_basepath "/api/v1",
      restler_static_string "/",
      restler_static_string "auth",
      restler_static_string "/",
      restler_static_string "login",
      restler_static_string " HTTP/1.1\r\n",
      restler_static_string "Accept: application/json\r\n",
      restler_static_string "Host: host.docker.internal:45000\r\n",
      restler_static_string "Content-Type: ",
      restler_static_string "application/json",
      restler_static_string "\r\n",
      restler_refreshable_authentication_token "authentication_token_tag",
      restler_static_string "\r\n",
      restler_static_string "\x7b",
      restler_static_string "\n    \"email\":",
      restler_fuzzable_string "fuzzstring" true,
      restler_static_string ",\n    \"password\":",
      restler_fuzzable_string "fuzzstring" true,
      restler_static_string "\x7d",
      restler_static_string "\r\n"],
    requestId := "/auth/login" }

/-- Endpoint: /admin/analytics, method: Get (source lines 41-57). -/
def request_admin_analytics : Request :=
  { primitives := [
      restler_static_string "GET ",
      restler_basepath "/api/v1",
      restler_static_string "/",
      restler_static_string "admin",
      restler_static_string "/",
      restler_static_string "analytics",
      restler_static_string " HTTP/1.1\r\n",
      restler_static_string "Accept: application/json\r\n",
      restler_static_string "Host: host.docker.internal:45000\r\n",
      restler_refreshable_authentication_token "authentication_token_tag",
      restler_static_string "\r\n"],
    requestId := "/admin/analytics" }

/-- Endpoint: /admin/restaurants, method: Get (source lines 60-76). -/
def request_admin_restaurants : Request :=
  { primitives := [
      restler_static_string "GET ",
      restler_basepath "/api/v1",
      restler_static_string "/",
      restler_static_string "admin",
      restler_static_string "/",
      restler_static_string "restaurants",
      restler_static_string " HTTP/1.1\r\n",
      restler_static_string "Accept: application/json\r\n",
      restler_static_string "Host: host.docker.internal:45000\r\n",
      restler_refreshable_authentication_token "authentication_token_tag",
      restler_static_string "\r\n"],
    requestId := "/admin/restaurants" }

/-- Endpoint: /admin/restaurants/{id}/approve, method: Post
(source lines 79-99). -/
def request_admin_restaurants_id_approve : Request :=
  { primitives := [
      restler_static_string "POST ",
      restler_basepath "/api/v1",
      restler_static_string "/",
      restler_static_string "admin",
      restler_static_string "/",
      restler_static_string "restaurants",
      restler_static_string "/",
      restler_fuzzable_int "1",
      restler_static_string "/",
      restler_static_string "approve",
      restler_static_string " HTTP/1.1\r\n",
      restler_static_string "Accept: application/json\r\n",
      restler_static_string "Host: host.docker.internal:45000\r\n",
      restler_refreshable_authentication_token "authentication_token_tag",
      restler_static_string "\r\n"],
    requestId := "/admin/restaurants/\x7bid\x7d/approve" }

/-- Endpoint: /admin/drivers, method: Get (source lines 102-118). -/
def request_admin_drivers : Request :=
  { primitives := [
      restler_static_string "GET ",
      restler_basepath "/api/v1",
      restler_static_string "/",
      restler_static_string "admin",
      restler_static_string "/",
      restler_static_string "drivers",
      restler_static_string " HTTP/1.1\r\n",
      restler_static_string "Accept: application/json\r\n",
      restler_static_string "Host: host.docker.internal:45000\r\n",
      restler_refreshable_authentication_token "authentication_token_tag",
      restler_static_string "\r\n"],
    requestId := "/admin/drivers" }

/-- Endpoint: /admin/drivers/{id}/approve, method: Post
(source lines 121-141). -/
def request_admin_drivers_id_approve : Request :=
  { primitives := [
      restler_static_string "POST ",
      restler_basepath "/api/v1",
      restler_static_string "/",
      restler_static_string "admin",
      restler_static_string "/",
      restler_static_string "drivers",
      restler_static_string "/",
      restler_fuzzable_int "1",
      restler_static_string "/",
      restler_static_string "approve",
      restler_static_string " HTTP/1.1\r\n",
      restler_static_string "Accept: application/json\r\n",
      restler_static_string "Host: host.docker.internal:45000\r\n",
      restler_refreshable_authentication_token "authentication_token_tag",
      restler_static_string "\r\n"],
    requestId := "/admin/drivers/\x7bid\x7d/approve" }

/-- Endpoint: /admin/invoices, method: Get (source lines 144-160). -/
def request_admin_invoices : Request :=
  { primitives := [
      restler_static_string "GET ",
      restler_basepath "/api/v1",
      restler_static_string "/",
      restler_static_string "admin",
      restler_static_string "/",
      restler_static_string "invoices",
      restler_static_string " HTTP/1.1\r\n",
      restler_static_string "Accept: application/json\r\n",
      restler_static_string "Host: host.docker.internal:45000\r\n",
      restler_refreshable_authentication_token "authentication_token_tag",
      restler_static_string "\r\n"],
    requestId := "/admin/invoices" }

/-- Endpoint: /admin/invoices/{id}, method: Get (source lines 163-181). -/
def request_admin_invoices_id : Request :=
  { primitives := [
      restler_static_string "GET ",
      restler_basepath "/api/v1",
      restler_static_string "/",
      restler_static_string "admin",
      restler_static_string "/",
      restler_static_string "invoices",
      restler_static_string "/",
      restler_fuzzable_int "1",
      restler_static_string " HTTP/1.1\r\n",
      restler_static_string "Accept: application/json\r\n",
      restler_static_string "Host: host.docker.internal:45000\r\n",
      restler_refreshable_authentication_token "authentication_token_tag",
      restler_static_string "\r\n"],
    requestId := "/admin/invoices/\x7bid\x7d" }

/-- Endpoint: /admin/invoices/generate, method: Post (source lines 184-202). -/
def request_admin_invoices_generate : Request :=
  { primitives := [
      restler_static_string "POST ",
      restler_basepath "/api/v1",
      restler_static_string "/",
      restler_static_string "admin",
      restler_static_string "/",
      restler_static_string "invoices",
      restler_static_string "/",
      restler_static_string "generate",
      restler_static_string " HTTP/1.1\r\n",
      restler_static_string "Accept: application/json\r\n",
      restler_static_string "Host: host.docker.internal:45000\r\n",
      restler_refreshable_authentication_token "authentication_token_tag",
      restler_static_string "\r\n"],
    requestId := "/admin/invoices/generate" }

/-- Endpoint: /admin/users, method: Get (source lines 205-221). -/
def request_admin_users : Request :=
  { primitives := [
      restler_static_string "GET ",
      restler_basepath "/api/v1",
      restler_static_string "/",
      restler_static_string "admin",
      restler_static_string "/",
      restler_static_string "users",
      restler_static_string " HTTP/1.1\r\n",
      restler_static_string "Accept: application/json\r\n",
      restler_static_string "Host: host.docker.internal:45000\r\n",
      restler_refreshable_authentication_token "authentication_token_tag",
      restler_static_string "\r\n"],
    requestId := "/admin/users" }

/-- Endpoint: /admin/orders, method: Get (source lines 224-240). -/
def request_admin_orders : Request :=
  { primitives := [
      restler_static_string "GET ",
      restler_basepath "/api/v1",
      restler_static_string "/",
      restler_static_string "admin",
      restler_static_string "/",
      restler_static_string "orders",
      restler_static_string " HTTP/1.1\r\n",
      restler_static_string "Accept: application/json\r\n",
      restler_static_string "Host: host.docker.internal:45000\r\n",
      restler_refreshable_authentication_token "authentication_token_tag",
      restler_static_string "\r\n"],
    requestId := "/admin/orders" }

/-- Endpoint: /orders, method: Get (source lines 243-259): path carries a
query string whose value is an unquoted fuzzable string. -/
def request_orders : Request :=
  { primitives := [
      restler_static_string "GET ",
      restler_basepath "/api/v1",
      restler_static_string "/",
      restler_static_string "orders",
      restler_static_string "?",
      restler_static_string "restaurant_id=",
      restler_fuzzable_string "fuzzstring" false,
      restler_static_string " HTTP/1.1\r\n",
      restler_static_string "Accept: application/json\r\n",
      restler_static_string "Host: host.docker.internal:45000\r\n",
      restler_refreshable_authentication_token "authentication_token_tag",
      restler_static_string "\r\n"],
    requestId := "/orders" }

/-- `req_collection`: the twelve templates in the order the source file adds
them with `req_collection.add_request(request)`. -/
def req_collection : List Request := [
  request_auth_login,
  request_admin_analytics,
  request_admin_restaurants,
  request_admin_restaurants_id_approve,
  request_admin_drivers,
  request_admin_drivers_id_approve,
  request_admin_invoices,
  request_admin_invoices_id,
  request_admin_invoices_generate,
  request_admin_users,
  request_admin_orders,
  request_orders]

end Grammar

namespace Engine

/-- The extracted-value store.  Modelled from the spec: a mapping from
(producer `requestId`, resource key) to the most recently observed concrete
value, represented as an association list. -/
def Store : Type := List ((String × String) × String)

/-- Modelled from the spec: the render context (§4.1) exposes (a) a
fuzz-value provider keyed by primitive identity — here the index of the
fuzzable primitive within its template, returning `none` when the strategy
yields no value — and (b) read access to the AuthToken and the
ExtractedValueStore; the configured base-path override of §4.1 is `none` when
the grammar's compiled value is kept. -/
structure RenderContext where
  provider : Nat → Option String
  store : Store
  authToken : String
  basepath : Option String

/-- Wrap a rendered value in double quotes when the primitive carries
`quoted=True`; leave it raw otherwise (spec §4.4 edge case). -/
def quoteIf (q : Bool) (v : String) : String :=
  if q then "\"" ++ v ++ "\"" else v

/-- Modelled from the spec: the Request Renderer (§4.4) — iterate the
template's primitives in declared order, concatenating rendered bytes with no
reordering.  A static string renders to its literal bytes; a base-path token
renders to the configured override or its compiled value; a dynamic
credential renders to the current AuthToken value; a fuzzable value renders
to the provider's value for its index (falling back to the declared example
value when the provider yields nothing), quoted per its flag.  `k` is the
index of the next fuzzable primitive. -/
def renderPrims (c : RenderContext) : List Primitive → Nat → String
  | [], _ => ""
  | .restler_static_string s :: ps, k => s ++ renderPrims c ps k
  | .restler_basepath v :: ps, k => (c.basepath.getD v) ++ renderPrims c ps k
  | .restler_refreshable_authentication_token _ :: ps, k =>
      c.authToken ++ renderPrims c ps k
  | .restler_fuzzable_string ex q :: ps, k =>
      quoteIf q ((c.provider k).getD ex) ++ renderPrims c ps (k + 1)
  | .restler_fuzzable_int ex :: ps, k =>
      ((c.provider k).getD ex) ++ renderPrims c ps (k + 1)

/-- Modelled from the spec: `render(template, valueSource)` produces the
byte-exact concatenation of the primitives' rendered output (§4.4, §6).
It is a total function: rendering never fails on a syntactically valid
grammar. -/
def render (c : RenderContext) (r : Request) : String :=
  renderPrims c r.primitives 0

/-- Rendering a primitive list using only the declared example values,
ignoring the provider: the fallback behaviour of §4.1. -/
def renderExamples (c : RenderContext) : List Primitive → String
  | [] => ""
  | .restler_static_string s :: ps => s ++ renderExamples c ps
  | .restler_basepath v :: ps => (c.basepath.getD v) ++ renderExamples c ps
  | .restler_refreshable_authentication_token _ :: ps =>
      c.authToken ++ renderExamples c ps
  | .restler_fuzzable_string ex q :: ps => quoteIf q ex ++ renderExamples c ps
  | .restler_fuzzable_int ex :: ps => ex ++ renderExamples c ps

/-- A concrete rendered credential header line used by the concrete
scenarios: the `DynamicCredential` primitive renders to the current
AuthToken value (§4.1). -/
def tokenLine : String := "Authorization: Bearer TOK\r\n"

/-- Fuzz provider of concrete scenario 2: `a@b.com` for the first fuzzable
primitive of the login template and `x` for the second. -/
def loginProvider : Nat → Option String := fun k =>
  if k = 0 then some "a@b.com" else if k = 1 then some "x" else none

/-- Render context of concrete scenario 2. -/
def ctxLogin : RenderContext :=
  { provider := loginProvider, store := [], authToken := tokenLine,
    basepath := none }

/-- Fuzz provider of concrete scenario 3: the string `42` for the single
fuzzable primitive of the /orders template. -/
def ordersProvider : Nat → Option String := fun k =>
  if k = 0 then some "42" else none

/-- Render context of concrete scenario 3. -/
def ctxOrders : RenderContext :=
  { provider := ordersProvider, store := [], authToken := tokenLine,
    basepath := none }

/-- A render context whose provider yields no value for any primitive
(concrete scenario 4: every fuzzable slot falls back to its example). -/
def ctxNone : RenderContext :=
  { provider := fun _ => none, store := [], authToken := tokenLine,
    basepath := none }

/-- The request line and header block of the rendered login request, ending
with the blank-line `\r\n\r\n` terminator of the header block. -/
def login_head : String :=
  "POST /api/v1/auth/login HTTP/1.1\r\nAccept: application/json\r\nHost: host.docker.internal:45000\r\nContent-Type: application/json\r\nAuthorization: Bearer TOK\r\n\r\n"

/-- Recognise a static-string primitive. -/
def isStatic : Primitive → Bool
  | .restler_static_string _ => true
  | _ => false

/-- The literal bytes of a static-string primitive (empty for the other
kinds, which `literalConcat` is only applied to all-static lists anyway). -/
def literalOf : Primitive → String
  | .restler_static_string s => s
  | _ => ""

/-- Byte concatenation of a template's literals in declared order. -/
def literalConcat : List Primitive → String
  | [] => ""
  | p :: ps => literalOf p ++ literalConcat ps

/-- Modelled from the spec: a structured HTTP response as the Response
Extractor sees it — a status code and the structured body, given as the
candidate values each resource key exposes (a list endpoint exposes the ids
of its list elements in order). -/
structure Response where
  status : Nat
  fields : List (String × List String)

/-- A status code in the 2xx success class. -/
def is2xx (s : Nat) : Bool := 200 ≤ s && s < 300

/-- Look up a (producer `requestId`, resource key) pair in the store. -/
def storeLookup : Store → (String × String) → Option String
  | [], _ => none
  | (k2, v) :: rest, k => if k2 = k then some v else storeLookup rest k

/-- Overwrite-or-add an entry, keeping the most recently observed value. -/
def storeInsert (k : String × String) (v : String) (st : Store) : Store :=
  (k, v) :: st.filter (fun e => !(decide (e.1 = k)))

/-- Modelled from the spec: the Response Extractor (§4.5) — apply the
producer's declared extraction rules (resource keys) to the structured body,
resolving multiple candidates to the first element (the documented default),
and record each found value in the store; never mutate on a non-2xx
response. -/
def extract (tid : String) (rules : List String) (resp : Response)
    (st : Store) : Store :=
  if is2xx resp.status then
    rules.foldl (fun acc key =>
      match (resp.fields.lookup key).bind List.head? with
      | some v => storeInsert (tid, key) v acc
      | none => acc) st
  else st

/-- A dependency edge: producer `requestId`, consumer `requestId`, resource
key (§3). -/
structure Edge where
  producer : String
  consumer : String
  resourceKey : String
deriving DecidableEq

/-- Modelled from the spec: the dependency edges the Dependency Graph
Builder derives for this grammar under the default "list endpoint exposes
its elements' `id`" rule (§4.2, §4.5, design notes) — each `/admin` list
endpoint produces the `id` consumed by the template that operates on
`\x7bid\x7d` under the same path. -/
def grammarEdges : List Edge := [
  { producer := "/admin/restaurants",
    consumer := "/admin/restaurants/\x7bid\x7d/approve", resourceKey := "id" },
  { producer := "/admin/drivers",
    consumer := "/admin/drivers/\x7bid\x7d/approve", resourceKey := "id" },
  { producer := "/admin/invoices",
    consumer := "/admin/invoices/\x7bid\x7d", resourceKey := "id" }]

/-- The producers of a template's mandatory edges. -/
def producersOf (t : String) : List String :=
  (grammarEdges.filter (fun e => e.consumer == t)).map Edge.producer

/-- The (producer, resource key) slots a template consumes. -/
def consumedSlots (t : String) : List (String × String) :=
  (grammarEdges.filter (fun e => e.consumer == t)).map
    (fun e => (e.producer, e.resourceKey))

/-- The extraction rules of a producer: the resource keys its response is
declared to expose. -/
def rulesOf (t : String) : List String :=
  (grammarEdges.filter (fun e => e.producer == t)).map Edge.resourceKey

/-- Modelled from the spec: the send order of one sequence (§4.6) — the
target's transitive producers in dependency order, then the target.  The
dependency graph of this grammar has depth one, so the transitive producers
are exactly the direct ones. -/
def sendOrder (t : String) : List String := producersOf t ++ [t]

/-- Per-sequence outcome reported by the engine (§7): success, degraded
(completed on a fallback value) or aborted. -/
inductive Outcome where
  | success
  | degraded
  | aborted
deriving DecidableEq

/-- Modelled from the spec: execute one sequence against an abstract
transport (`none` models a transport failure with retries exhausted).  A
failed producer send aborts the sequence; otherwise each producer's response
is fed to the extractor, and the sequence is a success when every consumed
slot was resolved, degraded when some slot fell back to its fuzz/example
value (§4.6, §7). -/
def runSeq (transport : String → Option Response) (t : String) : Outcome :=
  if (producersOf t).any (fun p => (transport p).isNone) then .aborted
  else
    let st := (producersOf t).foldl (fun acc p =>
      match transport p with
      | some resp => extract p (rulesOf p) resp acc
      | none => acc) ([] : Store)
    if (consumedSlots t).all (fun s => (storeLookup st s).isSome) then
      .success
    else .degraded

/-- The transport of concrete scenario 4: every request succeeds with a 200
response whose `id` list is empty (the admin list endpoints return an empty
list). -/
def emptyListTransport : String → Option Response :=
  fun _ => some { status := 200, fields := [("id", [])] }

/-- Modelled from the spec: the Authentication Token Manager's lifecycle
states (§4.3). -/
inductive TokState where
  | unissued
  | valid
  | expired
deriving DecidableEq

/-- The shared authentication state seen by concurrent sequences: the token
state, whether a refresh is in flight, and how many refresh (login exchange)
requests have been issued. -/
structure AuthState where
  tok : TokState
  inFlight : Bool
  refreshes : Nat
deriving DecidableEq

/-- Modelled from the spec: the interleaved small-step behaviour of
concurrent callers on the shared AuthToken (§4.3, §5).  A caller that
observes `Expired` with no refresh in flight begins the single refresh
(issuing one login-exchange request); a caller that observes `Expired` with
a refresh already in flight awaits it, issuing nothing; completion of the
in-flight refresh makes the token `Valid`. -/
inductive AuthStep : AuthState → AuthState → Prop where
  | beginRefresh (s : AuthState) : s.tok = .expired → s.inFlight = false →
      AuthStep s { tok := .expired, inFlight := true,
                   refreshes := s.refreshes + 1 }
  | awaitRefresh (s : AuthState) : s.tok = .expired → s.inFlight = true →
      AuthStep s s
  | completeRefresh (s : AuthState) : s.inFlight = true →
      AuthStep s { tok := .valid, inFlight := false,
                   refreshes := s.refreshes }

/-- The state in which N concurrent callers observe an expired token and no
refresh has been issued yet. -/
def expiredStart : AuthState :=
  { tok := .expired, inFlight := false, refreshes := 0 }

/-- Recognise the dynamic-credential primitive. -/
def isCred : Primitive → Bool
  | .restler_refreshable_authentication_token _ => true
  | _ => false

/-- Check of one template's credential placement: exactly one
dynamic-credential primitive, and some adjacent primitive pair is that
credential — carrying the tag `authentication_token_tag` — immediately
followed by the blank-line `\r\n` static that terminates the header block. -/
def credCheck (ps : List Primitive) : Bool :=
  (ps.countP isCred == 1) &&
  (ps.zip ps.tail).any (fun ab =>
    match ab with
    | (.restler_refreshable_authentication_token tag,
       .restler_static_string s) =>
        tag == "authentication_token_tag" && s == "\r\n"
    | _ => false)

/-- Check of one template's opening tokens: a static string holding the HTTP
method followed by a single space, then the base-path primitive carrying
`/api/v1`. -/
def startCheck (r : Request) : Bool :=
  match r.primitives with
  | .restler_static_string m :: .restler_basepath bp :: _ =>
      (m == "GET " || m == "POST ") && bp == "/api/v1"
  | _ => false

/-- The `requestId` strings of the collection in add order. -/
def requestIds : List String := Grammar.req_collection.map Request.requestId

/-- Bool check of the sequencing invariant over the whole grammar: for every
template's sequence and every dependency edge whose consumer the sequence
sends, the producer is sent at a strictly earlier position. -/
def seqOrderCheck : Bool :=
  requestIds.all (fun t =>
    grammarEdges.all (fun e =>
      !((sendOrder t).contains e.consumer) ||
      ((sendOrder t).contains e.producer &&
       Nat.blt ((sendOrder t).findIdx (fun x => x == e.producer))
         ((sendOrder t).findIdx (fun x => x == e.consumer)))))

/-- A second render context for scenario 2 whose provider is written
differently but has the same contents pointwise (used to exercise
determinism across distinct context values). -/
def ctxLogin2 : RenderContext :=
  { provider := fun k =>
      if 0 = k then some "a@b.com" else if k = 1 then some "x" else none,
    store := [], authToken := tokenLine, basepath := none }

/-- A small all-static template (a template of the shape C4 quantifies
over). -/
def staticDemo : Request :=
  { primitives := [
      Primitive.restler_static_string "GET ",
      Primitive.restler_static_string "/ping",
      Primitive.restler_static_string " HTTP/1.1\r\n"],
    requestId := "/ping" }

/-- A concrete non-empty store used to exercise the extractor on a non-2xx
response. -/
def demoStore : Store := [(("/admin/restaurants", "id"), "5")]

/-- A concrete 404 response carrying an extractable `id`, which must
nevertheless leave the store untouched. -/
def notFoundResponse : Response := { status := 404, fields := [("id", ["7"])] }

end Engine

namespace Engine

theorem renderPrims_congr (c1 c2 : RenderContext)
    (hp : ∀ j, c1.provider j = c2.provider j)
    (ht : c1.authToken = c2.authToken) (hb : c1.basepath = c2.basepath) :
    ∀ (ps : List Primitive) (k : Nat),
      renderPrims c1 ps k = renderPrims c2 ps k := by
  intro ps
  induction ps with
  | nil => intro k; rfl
  | cons p ps ih =>
      intro k
      cases p <;> simp [renderPrims, ht, hb, hp, ih]

theorem renderPrims_static (c : RenderContext) :
    ∀ (ps : List Primitive), ps.all isStatic = true →
      ∀ k, renderPrims c ps k = literalConcat ps := by
  intro ps
  induction ps with
  | nil => intro _ k; rfl
  | cons p ps ih =>
      intro h k
      cases p with
      | restler_static_string s =>
          simp only [List.all_cons, Bool.and_eq_true] at h
          simp [renderPrims, literalConcat, literalOf, ih h.2]
      | restler_fuzzable_string ex q => simp [List.all_cons, isStatic] at h
      | restler_fuzzable_int ex => simp [List.all_cons, isStatic] at h
      | restler_refreshable_authentication_token tag =>
          simp [List.all_cons, isStatic] at h
      | restler_basepath v => simp [List.all_cons, isStatic] at h

theorem renderPrims_noneProvider (c : RenderContext)
    (hp : ∀ j, c.provider j = none) :
    ∀ (ps : List Primitive) (k : Nat),
      renderPrims c ps k = renderExamples c ps := by
  intro ps
  induction ps with
  | nil => intro k; rfl
  | cons p ps ih =>
      intro k
      cases p <;> simp [renderPrims, renderExamples, hp, ih]

end Engine

namespace Engine

/-- C1: rendering the /auth/login template with the fuzz provider supplying
`a@b.com` and `x` for its two quoted `FuzzableValue` primitives produces a
request whose body — the bytes between the blank-line header terminator and
the message's final CRLF — is exactly
`\x7b\n    "email":"a@b.com",\n    "password":"x"\x7d`, each fuzz value
wrapped in double quotes because the primitive carries `quoted=True`, at the
primitive's declared position in the concatenation. -/
theorem login_render_body_exact :
    render ctxLogin Grammar.request_auth_login =
      login_head ++
        "\x7b\n    \"email\":\"a@b.com\",\n    \"password\":\"x\"\x7d" ++
        "\r\n" := by
  set_option maxRecDepth 40000 in decide

/-- C2: rendering the /orders template with the fuzz provider supplying the
string `42` for its `quoted=False` `FuzzableValue` primitive produces a path
whose query string is exactly `restaurant_id=42`, with no double quotes
around the value. -/
theorem orders_render_query_unquoted :
    render ctxOrders Grammar.request_orders =
      "GET /api/v1/orders?restaurant_id=42 HTTP/1.1\r\n" ++
        "Accept: application/json\r\nHost: host.docker.internal:45000\r\n" ++
        tokenLine ++ "\r\n" := by
  set_option maxRecDepth 40000 in decide

end Engine

namespace Engine

/-- C3: rendering is deterministic in the context — for every template, two
render calls whose contexts have identical valueSource contents (pointwise
equal fuzz providers, equal ExtractedValueStore contents, equal AuthToken,
equal base-path configuration) yield byte-identical output. -/
theorem render_deterministic (r : Request) (c1 c2 : RenderContext)
    (hp : ∀ j, c1.provider j = c2.provider j) (hs : c1.store = c2.store)
    (ht : c1.authToken = c2.authToken) (hb : c1.basepath = c2.basepath) :
    render c1 r = render c2 r :=
  renderPrims_congr c1 c2 hp ht hb r.primitives 0

/-- Witness for C3: the two syntactically different login contexts with the
same contents render the login template to byte-identical output. -/
theorem render_deterministic_witness :
    render ctxLogin Grammar.request_auth_login =
      render ctxLogin2 Grammar.request_auth_login :=
  render_deterministic Grammar.request_auth_login ctxLogin ctxLogin2
    (by intro j; cases j <;> simp [ctxLogin, ctxLogin2, loginProvider])
    rfl rfl rfl

/-- C4: for every template all of whose primitives are `StaticString` and
every pair of contexts, rendering is independent of the context and equals
the byte concatenation of the template's literals in declared order. -/
theorem static_render_constant (r : Request) (c1 c2 : RenderContext)
    (h : r.primitives.all isStatic = true) :
    render c1 r = literalConcat r.primitives ∧ render c1 r = render c2 r := by
  refine ⟨renderPrims_static c1 r.primitives h 0, ?_⟩
  rw [render, render, renderPrims_static c1 r.primitives h 0,
    renderPrims_static c2 r.primitives h 0]

/-- Witness for C4: a concrete all-static template rendered under two
different contexts. -/
theorem static_render_constant_witness :
    staticDemo.primitives.all isStatic = true ∧
    (render ctxLogin staticDemo = literalConcat staticDemo.primitives ∧
     render ctxLogin staticDemo = render ctxNone staticDemo) :=
  ⟨by decide, static_render_constant staticDemo ctxLogin ctxNone (by decide)⟩

/-- C5: when the provider yields no value, every fuzzable primitive renders
its declared example value, so rendering (a total function) never fails: the
approve template's `\x7bid\x7d` slot falls back to its example int `1`, and
the approve sequence over a producer returning an empty list is reported
degraded, not aborted. -/
theorem fuzzable_fallback_example :
    (∀ (c : RenderContext) (r : Request), (∀ j, c.provider j = none) →
       render c r = renderExamples c r.primitives) ∧
    render ctxNone Grammar.request_admin_restaurants_id_approve =
      "POST /api/v1/admin/restaurants/1/approve HTTP/1.1\r\nAccept: application/json\r\nHost: host.docker.internal:45000\r\nAuthorization: Bearer TOK\r\n\r\n" ∧
    runSeq emptyListTransport "/admin/restaurants/\x7bid\x7d/approve" =
      Outcome.degraded := by
  refine ⟨fun c r hp => renderPrims_noneProvider c hp r.primitives 0, ?_, ?_⟩
  · set_option maxRecDepth 40000 in decide
  · set_option maxRecDepth 40000 in decide

/-- Witness for C5: the fallback equation applied to the login template and
the concrete provider that yields nothing. -/
theorem fuzzable_fallback_example_witness :
    render ctxNone Grammar.request_auth_login =
      renderExamples ctxNone Grammar.request_auth_login.primitives :=
  fuzzable_fallback_example.1 ctxNone Grammar.request_auth_login
    (fun _ => rfl)

/-- C6: in every sequence of the grammar, the producer of every mandatory
dependency edge whose consumer the sequence sends is sent strictly earlier
(within one sequence execution is serial, so the producer completes before
the next send); in particular the approve sequence is exactly the GET
/admin/restaurants send followed by the POST approve send. -/
theorem sequencing_producer_first :
    seqOrderCheck = true ∧
    sendOrder "/admin/restaurants/\x7bid\x7d/approve" =
      ["/admin/restaurants", "/admin/restaurants/\x7bid\x7d/approve"] := by
  refine ⟨?_, ?_⟩
  · set_option maxRecDepth 40000 in decide
  · set_option maxRecDepth 40000 in decide

/-- C7: for every template, extraction rules, response and store, a response
whose status is not 2xx leaves the ExtractedValueStore unchanged — no pair
is added or overwritten. -/
theorem extract_non2xx_unchanged (tid : String) (rules : List String)
    (resp : Response) (st : Store) (h : is2xx resp.status = false) :
    extract tid rules resp st = st := by
  simp [extract, h]

/-- Witness for C7: a 404 response carrying an extractable `id` leaves a
concrete non-empty store untouched. -/
theorem extract_non2xx_unchanged_witness :
    extract "/admin/restaurants" ["id"] notFoundResponse demoStore =
      demoStore :=
  extract_non2xx_unchanged "/admin/restaurants" ["id"] notFoundResponse
    demoStore (by decide)

theorem authInv (s : AuthState)
    (h : Relation.ReflTransGen AuthStep expiredStart s) :
    (s.refreshes = 0 ∧ s.tok = TokState.expired ∧ s.inFlight = false) ∨
    (s.refreshes = 1 ∧ (s.inFlight = true ∨ s.tok = TokState.valid)) := by
  induction h with
  | refl => exact Or.inl ⟨rfl, rfl, rfl⟩
  | tail hr hstep ih =>
      cases hstep with
      | beginRefresh h1 h2 =>
          rcases ih with ⟨hz, _, _⟩ | ⟨_, hin | hval⟩
          · exact Or.inr ⟨by simp [hz], Or.inl rfl⟩
          · rw [h2] at hin; exact absurd hin (by simp)
          · rw [h1] at hval; exact absurd hval (by simp)
      | awaitRefresh h1 h2 => exact ih
      | completeRefresh h1 =>
          rcases ih with ⟨_, _, hin⟩ | ⟨ho, _⟩
          · rw [h1] at hin; exact absurd hin (by simp)
          · exact Or.inr ⟨ho, Or.inr rfl⟩

/-- C8: from the state in which concurrent callers observe an expired token,
along every interleaving of caller steps at most one refresh (login
exchange) request is ever issued — callers that observe the in-flight
refresh await it — and once the token is valid exactly one refresh has been
issued. -/
theorem auth_refresh_exclusive (s : AuthState)
    (h : Relation.ReflTransGen AuthStep expiredStart s) :
    s.refreshes ≤ 1 ∧ (s.tok = TokState.valid → s.refreshes = 1) := by
  rcases authInv s h with ⟨hz, htok, _⟩ | ⟨ho, _⟩
  · refine ⟨by simp [hz], fun hv => ?_⟩
    rw [htok] at hv
    exact absurd hv (by simp)
  · exact ⟨by simp [ho], fun _ => ho⟩

/-- Witness for C8: the two-step trace begin-refresh then complete-refresh
reaches the valid state having issued exactly one refresh. -/
theorem auth_refresh_exclusive_witness :
    ({ tok := TokState.valid, inFlight := false, refreshes := 1 } :
        AuthState).refreshes ≤ 1 ∧
    (({ tok := TokState.valid, inFlight := false, refreshes := 1 } :
        AuthState).tok = TokState.valid →
     ({ tok := TokState.valid, inFlight := false, refreshes := 1 } :
        AuthState).refreshes = 1) :=
  auth_refresh_exclusive _
    (Relation.ReflTransGen.tail
      (Relation.ReflTransGen.single
        (AuthStep.beginRefresh expiredStart rfl rfl))
      (AuthStep.completeRefresh
        { tok := TokState.expired, inFlight := true, refreshes := 1 } rfl))

/-- C9: the collection holds twelve templates, and each contains exactly one
dynamic-credential primitive, carrying the tag `authentication_token_tag`
and standing immediately before the blank-line `\r\n` static that terminates
the header block. -/
theorem credential_unique_in_headers :
    Grammar.req_collection.length = 12 ∧
    Grammar.req_collection.all (fun r => credCheck r.primitives) = true := by
  refine ⟨rfl, ?_⟩
  set_option maxRecDepth 40000 in decide

/-- C10: the twelve `requestId` strings are pairwise distinct, and every
template opens with a static string holding its HTTP method followed by a
single space and then the base-path primitive carrying `/api/v1`. -/
theorem requestIds_distinct_method_basepath :
    requestIds.length = 12 ∧ requestIds.Nodup ∧
    Grammar.req_collection.all startCheck = true := by
  refine ⟨rfl, ?_, ?_⟩
  · set_option maxRecDepth 40000 in decide
  · set_option maxRecDepth 40000 in decide

end Engine
